import Mathlib

/-!
Shallow embedding of the MEGA SDK SQLite DB access layer
(`src/src/db/sqlite.cpp`): `SqliteDbAccess::open` and the
`SqliteDbTable` operations.

Modelling conventions:
* A byte string (`std::string` payload / SQLite BLOB) is a `List Nat`.
* A 64-bit handle is a `Nat`; SQLite `int` parameters are `Int`.
* The backing database file is a `DbState`: the four tables created by
  `SqliteDbAccess::open` (`init`, `nodes`, `users`, `pcrs`) as row lists,
  plus `initExists`, the `sqlite_master` fact "a table named `init`
  exists" that `open` consults for its freshness check.
* A `SqliteDbTable` instance is a `TableState`: `db` is the open
  `sqlite3*` handle (`none` after `remove()` sets `db = NULL`), `pStmt`
  is the single cursor statement, modelled as the list of rows the
  prepared SELECT will deliver (`none` when `pStmt == NULL`).
* `INSERT OR REPLACE` on a primary key deletes any conflicting row and
  inserts the new one; it is modelled as filter-out-the-key-then-append.
* The embedding follows the success path of the SQLite C API: prepare,
  bind and step of a well-formed statement against the open handle do
  not fail.  The `if (!db)` guards, which the code checks first on every
  operation, are modelled exactly.  Out-parameters (`string* data`,
  `int* count`, `handle* h`) are passed in and returned, so that what
  the code leaves untouched is visible.
-/

abbrev Bytes := List Nat

/-- A row of the `nodes` table:
`nodehandle INTEGER PRIMARY KEY, parenthandle INTEGER, fingerprint BLOB,
attrstring TEXT, shared INTEGER, node BLOB`; `fingerprint` and
`attrstring` are nullable. -/
structure NodeRow where
  nodehandle   : Nat
  parenthandle : Nat
  fingerprint  : Option Bytes
  attrstring   : Option Bytes
  shared       : Int
  node         : Bytes
deriving Repr, DecidableEq

/-- The backing database file: the four tables plus the `sqlite_master`
fact that a table named `init` exists (the freshness check of
`SqliteDbAccess::open`). -/
structure DbState where
  initExists : Bool
  init  : List (Int × Bytes)
  nodes : List NodeRow
  users : List (Nat × Bytes)
  pcrs  : List (Nat × Bytes)
deriving Repr, DecidableEq

/-- A column value delivered by a cursor statement: the node-handle
cursors select an INTEGER column, the user/pcr cursors a BLOB column. -/
inductive Col where
  | blob  : Bytes → Col
  | int64 : Nat → Col
deriving Repr, DecidableEq

/-- Embeds `sqlite3_column_blob` on a cursor column.  The cursors that feed
`next` select only BLOB columns; reading an INTEGER column as a blob is
never exercised by this layer. -/
def Col.asBlob : Col → Bytes
  | .blob b  => b
  | .int64 _ => []

/-- Embeds `sqlite3_column_int64` on a cursor column.  The cursors that feed
`nexthandle` select only the INTEGER `nodehandle` column. -/
def Col.asInt : Col → Nat
  | .int64 n => n
  | .blob _  => 0

/-- A `SqliteDbTable` instance: the `sqlite3* db` member (`none` once
`remove()` has nulled it) and the `sqlite3_stmt* pStmt` cursor member,
modelled as the remaining rows of the prepared SELECT. -/
structure TableState where
  db    : Option DbState
  pStmt : Option (List Col)
deriving Repr, DecidableEq

/-- Embeds `SELECT content FROM init WHERE id = ?` (first row or none). -/
def lookupInit (s : DbState) (i : Int) : Option Bytes :=
  (s.init.find? (fun r => r.1 == i)).map (·.2)

/-- Embeds `INSERT OR REPLACE INTO init (id, content) VALUES (?, ?)`:
the conflicting row (if any) is deleted and the new one inserted. -/
def upsertInit (s : DbState) (i : Int) (b : Bytes) : DbState :=
  { s with init := s.init.filter (fun r => r.1 != i) ++ [(i, b)] }

/-- Modelled from the spec: `HANDLEKEYLENGTH`, the fixed length of each
handle-obfuscation sub-key, is a constant declared in `mega.h`, which is
outside the sources at hand; the spec only requires it to be a fixed
length. -/
def HANDLEKEYLENGTH : Nat := 16

/-- The external collaborators `SqliteDbAccess::open` calls during key
provisioning, which the spec excludes from this core ("the
symmetric-cipher and base64 primitives used to encrypt/encode generated
keys"), plus the two `PrnGen::genblock` outputs: `btoa` is
`Base64::btoa`, `encrypt` is `PaddedCBC::encrypt` with the master key
already fixed, `rnd1`/`rnd2` are the two generated random blocks. -/
structure OpenEnv where
  btoa    : Bytes → Bytes
  encrypt : Bytes → Bytes
  rnd1    : Bytes
  rnd2    : Bytes

/-- A database file that does not exist yet: `sqlite3_open` creates it
empty, with no tables. -/
def emptyDb : DbState :=
  { initExists := false, init := [], nodes := [], users := [], pcrs := [] }

/-- Embeds `SqliteDbAccess::open` (named `openDb` because `open` is a Lean
keyword): checks whether a table named `init` already exists
(freshness), creates the four tables if absent, and — only on a fresh
file — generates, encodes, encrypts and stores the two handle sub-keys
at init ids 4 and 5 via `INSERT OR REPLACE`.  Returns the
`SqliteDbTable` bound to the opened handle. -/
def openDb (env : OpenEnv) (s : DbState) : TableState :=
  let tableExists := s.initExists
  let s1 : DbState := { s with initExists := true }
  if tableExists then
    { db := some s1, pStmt := none }
  else
    let buf1 := env.encrypt (env.btoa env.rnd1)
    let s2 := upsertInit s1 4 buf1
    let buf2 := env.encrypt (env.btoa env.rnd2)
    let s3 := upsertInit s2 5 buf2
    { db := some s3, pStmt := none }

/-- Embeds `SqliteDbTable::readhkey`: reads init ids 4 then 5 and decodes each
with `Base64::atob` (the code applies no decryption here); fails if `db`
is null or either row is absent.  `atob` is the external base64 decode,
passed in as a parameter. -/
def readhkey (atob : Bytes → Bytes) (t : TableState) : Option (Bytes × Bytes) :=
  match t.db with
  | none => none
  | some s =>
    match lookupInit s 4 with
    | none => none
    | some b4 =>
      match lookupInit s 5 with
      | none => none
      | some b5 => some (atob b4, atob b5)

/-- Embeds `SqliteDbTable::getscsn`: `SELECT content FROM init WHERE id = 0`;
on a row, `data->assign(...)`; otherwise `data` is untouched and the
result is false. -/
def getscsn (t : TableState) (data : Bytes) : Bool × Bytes :=
  match t.db with
  | none => (false, data)
  | some s =>
    match lookupInit s 0 with
    | none => (false, data)
    | some b => (true, b)

/-- Embeds `SqliteDbTable::getrootnode`: `SELECT content FROM init WHERE id = ?`
with the caller-supplied index bound. -/
def getrootnode (t : TableState) (index : Int) (data : Bytes) : Bool × Bytes :=
  match t.db with
  | none => (false, data)
  | some s =>
    match lookupInit s index with
    | none => (false, data)
    | some b => (true, b)

/-- Embeds `SqliteDbTable::getnodebyhandle`:
`SELECT node FROM nodes WHERE nodehandle = ?`. -/
def getnodebyhandle (t : TableState) (h : Nat) (data : Bytes) : Bool × Bytes :=
  match t.db with
  | none => (false, data)
  | some s =>
    match s.nodes.find? (fun r => r.nodehandle == h) with
    | none => (false, data)
    | some r => (true, r.node)

/-- Embeds `SqliteDbTable::getnodebyfingerprint`:
`SELECT node FROM nodes WHERE fingerprint = ?` with `fp` bound as a
blob; a NULL fingerprint never compares equal in SQL, so only rows whose
fingerprint is exactly the bound blob match.  First row only. -/
def getnodebyfingerprint (t : TableState) (fp : Bytes) (data : Bytes) : Bool × Bytes :=
  match t.db with
  | none => (false, data)
  | some s =>
    match s.nodes.find? (fun r => r.fingerprint == some fp) with
    | none => (false, data)
    | some r => (true, r.node)

/-- Embeds `SqliteDbTable::getnumchildrenquery`:
`SELECT COUNT(*) FROM nodes WHERE parenthandle = ?`.  The code zeroes
`*count` before the query; on the success path the count row always
arrives and overwrites it, and with `db == NULL` the function returns
before touching `count`. -/
def getnumchildrenquery (t : TableState) (ph : Nat) (count : Nat) : Bool × Nat :=
  match t.db with
  | none => (false, count)
  | some s => (true, (s.nodes.filter (fun r => r.parenthandle == ph)).length)

/-- Embeds `SqliteDbTable::getnumchildfilesquery`:
`SELECT COUNT(*) FROM nodes WHERE parenthandle = ? AND fingerprint IS NOT NULL`. -/
def getnumchildfilesquery (t : TableState) (ph : Nat) (count : Nat) : Bool × Nat :=
  match t.db with
  | none => (false, count)
  | some s =>
    (true, (s.nodes.filter (fun r => r.parenthandle == ph && r.fingerprint.isSome)).length)

/-- Embeds `SqliteDbTable::getnumchildfoldersquery`:
`SELECT COUNT(*) FROM nodes WHERE parenthandle = ? AND fingerprint IS NULL`. -/
def getnumchildfoldersquery (t : TableState) (ph : Nat) (count : Nat) : Bool × Nat :=
  match t.db with
  | none => (false, count)
  | some s =>
    (true, (s.nodes.filter (fun r => r.parenthandle == ph && r.fingerprint.isNone)).length)

/-- Embeds `SqliteDbTable::rewinduser`: prepares `SELECT user FROM users` into
the cursor slot (resetting any previous statement); no-op with a null
`db`. -/
def rewinduser (t : TableState) : TableState :=
  match t.db with
  | none => t
  | some s => { t with pStmt := some (s.users.map (fun u => Col.blob u.2)) }

/-- Embeds `SqliteDbTable::rewindpcr`: prepares `SELECT pcr FROM pcrs` into the
cursor slot. -/
def rewindpcr (t : TableState) : TableState :=
  match t.db with
  | none => t
  | some s => { t with pStmt := some (s.pcrs.map (fun u => Col.blob u.2)) }

/-- Embeds `SqliteDbTable::rewindhandleschildren`: prepares
`SELECT nodehandle FROM nodes WHERE parenthandle = ?`. -/
def rewindhandleschildren (t : TableState) (ph : Nat) : TableState :=
  match t.db with
  | none => t
  | some s =>
    { t with pStmt := some ((s.nodes.filter
        (fun r => r.parenthandle == ph)).map (fun r => Col.int64 r.nodehandle)) }

/-- Embeds `SqliteDbTable::rewindhandlesoutshares(handle ph)`: prepares
`SELECT nodehandle FROM nodes WHERE parenthandle = ? AND shared = 1 OR shared = 4`.
In SQL, `AND` binds tighter than `OR`, so the WHERE clause is
`(parenthandle = ph AND shared = 1) OR shared = 4`. -/
def rewindhandlesoutshares (t : TableState) (ph : Nat) : TableState :=
  match t.db with
  | none => t
  | some s =>
    { t with pStmt := some ((s.nodes.filter
        (fun r => (r.parenthandle == ph && r.shared == 1) || r.shared == 4)).map
        (fun r => Col.int64 r.nodehandle)) }

/-- Embeds `SqliteDbTable::rewindhandlespendingshares(handle ph)`: prepares
`SELECT nodehandle FROM nodes WHERE parenthandle = ? AND shared = 3 OR shared = 4`;
again `AND` binds tighter than `OR`. -/
def rewindhandlespendingshares (t : TableState) (ph : Nat) : TableState :=
  match t.db with
  | none => t
  | some s =>
    { t with pStmt := some ((s.nodes.filter
        (fun r => (r.parenthandle == ph && r.shared == 3) || r.shared == 4)).map
        (fun r => Col.int64 r.nodehandle)) }

/-- Embeds `SqliteDbTable::next`: returns false if `db` or `pStmt` is null; on
`SQLITE_ROW` assigns the blob column into `data` and returns true; on
any other step result finalizes the statement, nulls `pStmt` and
returns false.  Result: (return value, `data` content, instance). -/
def next (t : TableState) (data : Bytes) : Bool × Bytes × TableState :=
  match t.db with
  | none => (false, data, t)
  | some _ =>
    match t.pStmt with
    | none => (false, data, t)
    | some [] => (false, data, { t with pStmt := none })
    | some (c :: cs) => (true, c.asBlob, { t with pStmt := some cs })

/-- Embeds `SqliteDbTable::nexthandle`: as `next`, but assigns the INTEGER
column into `*h`. -/
def nexthandle (t : TableState) (h : Nat) : Bool × Nat × TableState :=
  match t.db with
  | none => (false, h, t)
  | some _ =>
    match t.pStmt with
    | none => (false, h, t)
    | some [] => (false, h, { t with pStmt := none })
    | some (c :: cs) => (true, c.asInt, { t with pStmt := some cs })

/-- Embeds `SqliteDbTable::putscsn`:
`INSERT OR REPLACE INTO init (id, content) VALUES (0, ?)`. -/
def putscsn (t : TableState) (data : Bytes) : Bool × TableState :=
  match t.db with
  | none => (false, t)
  | some s => (true, { t with db := some (upsertInit s 0 data) })

/-- Embeds `SqliteDbTable::putrootnode`:
`INSERT OR REPLACE INTO init (id, content) VALUES (?, ?)` with the
caller-supplied index bound unchecked. -/
def putrootnode (t : TableState) (index : Int) (data : Bytes) : Bool × TableState :=
  match t.db with
  | none => (false, t)
  | some s => (true, { t with db := some (upsertInit s index data) })

/-- Embeds `SqliteDbTable::putnode`: `INSERT OR REPLACE INTO nodes (...)`.
An empty `fp` is bound as NULL (folder marker); a null `attr` pointer is
bound as NULL text. -/
def putnode (t : TableState) (h ph : Nat) (fp : Bytes) (attr : Option Bytes)
    (shared : Int) (node : Bytes) : Bool × TableState :=
  match t.db with
  | none => (false, t)
  | some s =>
    let row : NodeRow :=
      { nodehandle := h, parenthandle := ph,
        fingerprint := if fp.isEmpty then none else some fp,
        attrstring := attr, shared := shared, node := node }
    let s1 := { s with nodes := s.nodes.filter (fun r => r.nodehandle != h) ++ [row] }
    (true, { t with db := some s1 })

/-- Embeds `SqliteDbTable::putuser`:
`INSERT OR REPLACE INTO users (userhandle, user) VALUES (?, ?)`. -/
def putuser (t : TableState) (userhandle : Nat) (user : Bytes) : Bool × TableState :=
  match t.db with
  | none => (false, t)
  | some s =>
    let s1 := { s with users := s.users.filter (fun r => r.1 != userhandle) ++ [(userhandle, user)] }
    (true, { t with db := some s1 })

/-- Embeds `SqliteDbTable::putpcr`:
`INSERT OR REPLACE INTO pcrs (id, pcr) VALUES (?, ?)`. -/
def putpcr (t : TableState) (id : Nat) (pcr : Bytes) : Bool × TableState :=
  match t.db with
  | none => (false, t)
  | some s =>
    let s1 := { s with pcrs := s.pcrs.filter (fun r => r.1 != id) ++ [(id, pcr)] }
    (true, { t with db := some s1 })

/-- Embeds `SqliteDbTable::delnode`: `DELETE FROM nodes WHERE nodehandle = ?`;
`sqlite3_step` of a DELETE returns `SQLITE_DONE` whether or not any row
matched, so the result is true either way. -/
def delnode (t : TableState) (h : Nat) : Bool × TableState :=
  match t.db with
  | none => (false, t)
  | some s =>
    let s1 := { s with nodes := s.nodes.filter (fun r => r.nodehandle != h) }
    (true, { t with db := some s1 })

/-- Embeds `SqliteDbTable::delpcr`: `DELETE FROM pcrs WHERE id = ?`; succeeds
whether or not any row matched. -/
def delpcr (t : TableState) (id : Nat) : Bool × TableState :=
  match t.db with
  | none => (false, t)
  | some s =>
    let s1 := { s with pcrs := s.pcrs.filter (fun r => r.1 != id) }
    (true, { t with db := some s1 })

/-- Embeds `SqliteDbTable::truncate`: executes `DELETE FROM scsn`,
`DELETE FROM nodes`, `DELETE FROM users`, `DELETE FROM pcrs`.  The
scalar-slot table is named `init` (the creation comment in `open` calls
it 'scsn' but the CREATE TABLE statement names it `init`), so
`DELETE FROM scsn` fails with "no such table"; `sqlite3_exec`'s error
is ignored and the `init` rows survive.  The other three deletes hit
existing tables and empty them. -/
def truncate (t : TableState) : TableState :=
  match t.db with
  | none => t
  | some s =>
    { t with db := some { s with nodes := [], users := [], pcrs := [] } }

/-- Embeds `SqliteDbTable::remove`: finalizes the cursor, rolls back, closes
the handle, sets `db = NULL` and unlinks the backing file (the file
deletion goes through `fsaccess`, outside this state).  The `pStmt`
member is finalized; since every later operation checks `db` first, it
is modelled as cleared. -/
def remove (t : TableState) : TableState :=
  match t.db with
  | none => t
  | some _ => { db := none, pStmt := none }

/-- Repeatedly call `nexthandle` until it reports exhaustion, collecting
the handles it delivers; `fuel` bounds the number of calls. -/
def drainHandles : Nat → TableState → List Nat × TableState
  | 0, t => ([], t)
  | fuel + 1, t =>
    match nexthandle t 0 with
    | (false, _, t1) => ([], t1)
    | (true, h, t1) =>
      let r := drainHandles fuel t1
      (h :: r.1, r.2)

/-- Concrete open environment for exercising `openDb`: identity encode and
encrypt, and two fixed "random" blocks of the sub-key length. -/
def envW1 : OpenEnv :=
  { btoa := fun b => b, encrypt := fun b => b,
    rnd1 := List.replicate HANDLEKEYLENGTH 1,
    rnd2 := List.replicate HANDLEKEYLENGTH 2 }

/-- A second open environment with different random blocks, standing for the
reopen of the same store in a later session. -/
def envW2 : OpenEnv :=
  { btoa := fun b => b, encrypt := fun b => b,
    rnd1 := List.replicate HANDLEKEYLENGTH 3,
    rnd2 := List.replicate HANDLEKEYLENGTH 4 }

/-- The database state produced by a fresh `openDb envW1 emptyDb`. -/
def sW5 : DbState :=
  { initExists := true,
    init := [(4, List.replicate HANDLEKEYLENGTH 1), (5, List.replicate HANDLEKEYLENGTH 2)],
    nodes := [], users := [], pcrs := [] }

/-- A node whose share state is 4 (outshare plus pendingshare) and whose
parent is 99. -/
def rowLeak : NodeRow :=
  { nodehandle := 6, parenthandle := 99, fingerprint := none, attrstring := none,
    shared := 4, node := [0] }

/-- A store holding only `rowLeak`. -/
def dbLeak : DbState :=
  { initExists := true, init := [], nodes := [rowLeak], users := [], pcrs := [] }

/-- A store with every table family populated: a sync token at init id 0, a
root handle at id 1, one node, one user and one pending contact. -/
def dbPopulated : DbState :=
  { initExists := true, init := [(0, [7]), (1, [3])],
    nodes := [{ nodehandle := 1, parenthandle := 0, fingerprint := none,
                attrstring := none, shared := 0, node := [5] }],
    users := [(2, [6])], pcrs := [(3, [8])] }

/-- A store whose init table holds only the parent-handle sub-key slot 5. -/
def sW8 : DbState :=
  { initExists := true, init := [(5, [9])], nodes := [], users := [], pcrs := [] }

/-- The database state produced by a fresh open: the four tables exist and
the init table holds exactly the two encrypted, encoded sub-keys at ids 4
and 5. -/
def freshState (env : OpenEnv) : DbState :=
  { initExists := true,
    init := [(4, env.encrypt (env.btoa env.rnd1)), (5, env.encrypt (env.btoa env.rnd2))],
    nodes := [], users := [], pcrs := [] }

/-! ### Helper lemmas about keyed row lists -/

theorem find?_filter_append_self {α κ : Type} [DecidableEq κ] (k : α → κ) (l : List α)
    (x : α) (c : κ) (hx : k x = c) :
    ((l.filter fun r => k r != c) ++ [x]).find? (fun r => k r == c) = some x := by
  induction l with
  | nil => simp [List.find?, hx]
  | cons a l ih =>
    by_cases h : k a = c
    · simpa [List.filter_cons, h] using ih
    · simpa [List.filter_cons, h, List.find?_cons, List.find?_cons_of_neg] using ih

theorem filter_filter_append_self {α κ : Type} [DecidableEq κ] (k : α → κ) (l : List α)
    (x : α) (c : κ) (hx : k x = c) :
    ((l.filter fun r => k r != c) ++ [x]).filter (fun r => k r == c) = [x] := by
  induction l with
  | nil => simp [hx]
  | cons a l ih =>
    by_cases h : k a = c
    · simpa [List.filter_cons, h] using ih
    · simpa [List.filter_cons, h] using ih

theorem find?_filter_append_other {α κ : Type} [DecidableEq κ] (k : α → κ) (l : List α)
    (x : α) (c c2 : κ) (hx : k x = c) (hne : c2 ≠ c) :
    ((l.filter fun r => k r != c) ++ [x]).find? (fun r => k r == c2)
      = l.find? (fun r => k r == c2) := by
  have hxc : (k x == c2) = false := by simp [hx, Ne.symm hne]
  induction l with
  | nil => simp [List.find?, hxc]
  | cons a l ih =>
    by_cases h : k a = c
    · have h1 : (k a != c) = false := by simp [h]
      have h2 : (k a == c2) = false := by simp [h, Ne.symm hne]
      simp only [List.filter_cons, h1, if_false, Bool.false_eq_true, ite_false,
        List.find?_cons, h2, ih]
    · have h1 : (k a != c) = true := by simp [h]
      by_cases h2 : k a = c2
      · have h3 : (k a == c2) = true := by simp [h2]
        simp only [List.filter_cons, h1, ite_true, List.cons_append,
          List.find?_cons, h3]
      · have h3 : (k a == c2) = false := by simp [h2]
        simp only [List.filter_cons, h1, ite_true, List.cons_append,
          List.find?_cons, h3, ih]

theorem lookupInit_upsertInit (s : DbState) (i j : Int) (b : Bytes) :
    lookupInit (upsertInit s i b) j = if j = i then some b else lookupInit s j := by
  by_cases h : j = i
  · subst h
    simp [lookupInit, upsertInit,
      find?_filter_append_self (fun r : Int × Bytes => r.1) s.init (j, b) j rfl]
  · simp [lookupInit, upsertInit, h,
      find?_filter_append_other (fun r : Int × Bytes => r.1) s.init (i, b) i j rfl h]

theorem drainHandles_pStmt (s : DbState) (l : List Col) (fuel : Nat)
    (hfuel : l.length < fuel) :
    drainHandles fuel { db := some s, pStmt := some l }
      = (l.map Col.asInt, { db := some s, pStmt := none }) := by
  induction l generalizing fuel with
  | nil =>
    cases fuel with
    | zero => exact absurd hfuel (by simp)
    | succ f => simp [drainHandles, nexthandle]
  | cons c cs ih =>
    cases fuel with
    | zero => exact absurd hfuel (by simp)
    | succ f =>
      have hrec := ih f (by simpa using Nat.lt_of_succ_lt_succ hfuel)
      simp [drainHandles, nexthandle, hrec]

theorem length_filter_partition {α : Type} (l : List α) (a b : α → Bool) :
    (l.filter a).length
      = (l.filter fun r => a r && b r).length + (l.filter fun r => a r && !b r).length := by
  induction l with
  | nil => rfl
  | cons x l ih =>
    cases hx : a x <;> cases hbx : b x <;>
      simp [List.filter_cons, hx, hbx, ih] <;> omega

/-! ### The claims -/

/-- C1: for every node handle `h` and payload `p`, `putnode(h, …, p)` followed
by `getnodebyhandle(h)` returns exactly `p` byte-for-byte, and a second
`putnode(h, …, p2)` on the same handle followed by `getnodebyhandle(h)`
returns `p2`; afterwards the nodes table holds exactly one row keyed `h`:
the second put replaced the existing row rather than adding a duplicate. -/
theorem putnode_roundtrip_and_overwrite
    (t : TableState) (s : DbState) (hdb : t.db = some s)
    (h ph : Nat) (fp : Bytes) (attr : Option Bytes) (sh : Int) (p p2 buf buf2 : Bytes) :
    (putnode t h ph fp attr sh p).1 = true ∧
    getnodebyhandle (putnode t h ph fp attr sh p).2 h buf = (true, p) ∧
    getnodebyhandle (putnode (putnode t h ph fp attr sh p).2 h ph fp attr sh p2).2 h buf2
      = (true, p2) ∧
    ((putnode (putnode t h ph fp attr sh p).2 h ph fp attr sh p2).2.db.map
        (fun s2 => (s2.nodes.filter (fun r => r.nodehandle == h)).length)) = some 1 := by
  refine ⟨?_, ?_, ?_, ?_⟩ <;>
    simp [putnode, getnodebyhandle, hdb,
      find?_filter_append_self (fun r : NodeRow => r.nodehandle),
      filter_filter_append_self (fun r : NodeRow => r.nodehandle)]

/-- Witness for C1 at a concrete store: put payload `[9]` at handle 7, read it
back, overwrite with `[8, 8]`, read that back, and observe a single row. -/
theorem putnode_roundtrip_and_overwrite_witness :
    (putnode ⟨some emptyDb, none⟩ 7 3 [1] none 0 [9]).1 = true ∧
    getnodebyhandle (putnode ⟨some emptyDb, none⟩ 7 3 [1] none 0 [9]).2 7 [] = (true, [9]) ∧
    getnodebyhandle
      (putnode (putnode ⟨some emptyDb, none⟩ 7 3 [1] none 0 [9]).2 7 3 [1] none 0 [8, 8]).2
      7 [] = (true, [8, 8]) ∧
    ((putnode (putnode ⟨some emptyDb, none⟩ 7 3 [1] none 0 [9]).2 7 3 [1] none 0 [8, 8]).2.db.map
        (fun s2 => (s2.nodes.filter (fun r => r.nodehandle == 7)).length)) = some 1 :=
  putnode_roundtrip_and_overwrite ⟨some emptyDb, none⟩ emptyDb rfl 7 3 [1] none 0 [9] [8, 8] [] []

/-- C2: for every parent handle `P`, the cursor prepared by
`rewindhandlesoutshares(P)` (WHERE `parenthandle = P AND shared = 1 OR
shared = 4`) enumerates exactly the children of `P` whose share state is 1
together with every node whose share state is 4 regardless of its parent, and
the cursor prepared by `rewindhandlespendingshares(P)` (WHERE
`parenthandle = P AND shared = 3 OR shared = 4`) likewise delivers every
share-state-4 node regardless of parent: SQL `AND` binds tighter than `OR`. -/
theorem share_selectors_ignore_parent_for_state4
    (t : TableState) (s : DbState) (hdb : t.db = some s) (P : Nat) (fuel : Nat)
    (hfuel : s.nodes.length < fuel) :
    (∀ hnd, hnd ∈ (drainHandles fuel (rewindhandlesoutshares t P)).1 ↔
      ∃ r ∈ s.nodes, r.nodehandle = hnd ∧
        ((r.parenthandle = P ∧ r.shared = 1) ∨ r.shared = 4)) ∧
    (∀ hnd, hnd ∈ (drainHandles fuel (rewindhandlespendingshares t P)).1 ↔
      ∃ r ∈ s.nodes, r.nodehandle = hnd ∧
        ((r.parenthandle = P ∧ r.shared = 3) ∨ r.shared = 4)) := by
  obtain ⟨tdb, tps⟩ := t
  obtain rfl : tdb = some s := hdb
  have hlen1 : ((s.nodes.filter
      (fun r => (r.parenthandle == P && r.shared == 1) || r.shared == 4)).map
      (fun r => Col.int64 r.nodehandle)).length < fuel := by
    rw [List.length_map]
    exact lt_of_le_of_lt (List.length_filter_le _ _) hfuel
  have hlen2 : ((s.nodes.filter
      (fun r => (r.parenthandle == P && r.shared == 3) || r.shared == 4)).map
      (fun r => Col.int64 r.nodehandle)).length < fuel := by
    rw [List.length_map]
    exact lt_of_le_of_lt (List.length_filter_le _ _) hfuel
  have hrw1 : rewindhandlesoutshares { db := some s, pStmt := tps } P
      = { db := some s, pStmt := some ((s.nodes.filter
          (fun r => (r.parenthandle == P && r.shared == 1) || r.shared == 4)).map
          (fun r => Col.int64 r.nodehandle)) } := rfl
  have hrw2 : rewindhandlespendingshares { db := some s, pStmt := tps } P
      = { db := some s, pStmt := some ((s.nodes.filter
          (fun r => (r.parenthandle == P && r.shared == 3) || r.shared == 4)).map
          (fun r => Col.int64 r.nodehandle)) } := rfl
  constructor <;> intro hnd
  · rw [hrw1, drainHandles_pStmt s _ fuel hlen1]
    simp only [List.map_map, List.mem_map, Function.comp, List.mem_filter, Col.asInt,
      Bool.or_eq_true, Bool.and_eq_true, beq_iff_eq]
    exact ⟨fun ⟨r, ⟨hm, hp⟩, he⟩ => ⟨r, hm, he, hp⟩, fun ⟨r, hm, he, hp⟩ => ⟨r, ⟨hm, hp⟩, he⟩⟩
  · rw [hrw2, drainHandles_pStmt s _ fuel hlen2]
    simp only [List.map_map, List.mem_map, Function.comp, List.mem_filter, Col.asInt,
      Bool.or_eq_true, Bool.and_eq_true, beq_iff_eq]
    exact ⟨fun ⟨r, ⟨hm, hp⟩, he⟩ => ⟨r, hm, he, hp⟩, fun ⟨r, hm, he, hp⟩ => ⟨r, ⟨hm, hp⟩, he⟩⟩

/-- Witness for C2: in a store whose only node has share state 4 and parent
99, the outgoing-share cursor scoped to parent 5 still delivers that node's
handle. -/
theorem share_selectors_ignore_parent_for_state4_witness :
    6 ∈ (drainHandles 2 (rewindhandlesoutshares ⟨some dbLeak, none⟩ 5)).1 :=
  ((share_selectors_ignore_parent_for_state4 ⟨some dbLeak, none⟩ dbLeak rfl 5 2
      (by decide)).1 6).mpr ⟨rowLeak, by decide, by decide, Or.inr (by decide)⟩

/-- C3 (code bug): `truncate()` empties the nodes, users and pcrs tables, so
`getnodebyhandle`, `getnumchildrenquery` and the user/pcr cursors find
nothing afterwards — but its first statement, `DELETE FROM scsn`, names a
table that does not exist (the scalar-slot table was created as `init`,
although the creation comment in `open` calls it 'scsn'), the error of
`sqlite3_exec` is ignored, and the scalar-slot rows survive: on a populated
store, `getscsn` and `getrootnode` still return the old values after
`truncate()`, contradicting the claim that all four table families are
emptied. -/
theorem truncate_empties_rows_except_init :
    getnodebyhandle (truncate ⟨some dbPopulated, none⟩) 1 [] = (false, []) ∧
    getnumchildrenquery (truncate ⟨some dbPopulated, none⟩) 0 0 = (true, 0) ∧
    (next (rewinduser (truncate ⟨some dbPopulated, none⟩)) []).1 = false ∧
    (next (rewindpcr (truncate ⟨some dbPopulated, none⟩)) []).1 = false ∧
    getscsn (truncate ⟨some dbPopulated, none⟩) [] = (true, [7]) ∧
    getrootnode (truncate ⟨some dbPopulated, none⟩) 1 [] = (true, [3]) := by
  decide

/-- C4: for every parent handle `ph` and every node set, the child count
equals the child-file count (fingerprint non-null) plus the child-folder
count (fingerprint null): the two predicates partition the children. -/
theorem countchildren_eq_files_plus_folders
    (t : TableState) (s : DbState) (hdb : t.db = some s) (ph : Nat) (c1 c2 c3 : Nat) :
    (getnumchildrenquery t ph c1).1 = true ∧
    (getnumchildfilesquery t ph c2).1 = true ∧
    (getnumchildfoldersquery t ph c3).1 = true ∧
    (getnumchildrenquery t ph c1).2
      = (getnumchildfilesquery t ph c2).2 + (getnumchildfoldersquery t ph c3).2 := by
  refine ⟨by simp [getnumchildrenquery, hdb], by simp [getnumchildfilesquery, hdb],
    by simp [getnumchildfoldersquery, hdb], ?_⟩
  simp only [getnumchildrenquery, getnumchildfilesquery, getnumchildfoldersquery, hdb]
  have hnot : ∀ o : Option Bytes, (!o.isSome) = o.isNone := by
    intro o; cases o <;> rfl
  have hpart := length_filter_partition s.nodes
    (fun r => r.parenthandle == ph) (fun r => r.fingerprint.isSome)
  simp only [hnot] at hpart
  exact hpart

/-- Witness for C4 on a concrete store with one folder child under parent 0. -/
theorem countchildren_eq_files_plus_folders_witness :
    (getnumchildrenquery ⟨some dbPopulated, none⟩ 0 5).2
      = (getnumchildfilesquery ⟨some dbPopulated, none⟩ 0 5).2
        + (getnumchildfoldersquery ⟨some dbPopulated, none⟩ 0 5).2 :=
  (countchildren_eq_files_plus_folders ⟨some dbPopulated, none⟩ dbPopulated rfl 0 5 5 5).2.2.2

/-- C5: opening a fresh store provisions sub-keys at init ids 4 and 5 such
that `readhkey` succeeds and returns the two decoded byte sequences of the
fixed sub-key length, and reopening the same store — even with fresh random
material `env2` — leaves the database untouched and `readhkey` returns the
identical two sequences: key provisioning runs only when the init table did
not previously exist.  The length hypotheses delimit the external base64
decode: decoding an encoded key yields the fixed sub-key length. -/
theorem open_provisions_keys_only_when_fresh
    (env env2 : OpenEnv) (atob : Bytes → Bytes) (s1 : DbState)
    (hdb : (openDb env emptyDb).db = some s1)
    (hlen1 : (atob (env.encrypt (env.btoa env.rnd1))).length = HANDLEKEYLENGTH)
    (hlen2 : (atob (env.encrypt (env.btoa env.rnd2))).length = HANDLEKEYLENGTH) :
    readhkey atob (openDb env emptyDb)
      = some (atob (env.encrypt (env.btoa env.rnd1)), atob (env.encrypt (env.btoa env.rnd2))) ∧
    (atob (env.encrypt (env.btoa env.rnd1))).length = HANDLEKEYLENGTH ∧
    (atob (env.encrypt (env.btoa env.rnd2))).length = HANDLEKEYLENGTH ∧
    s1.initExists = true ∧
    (openDb env2 s1).db = some s1 ∧
    readhkey atob (openDb env2 s1) = readhkey atob (openDb env emptyDb) := by
  have hfresh : (openDb env emptyDb).db = some (freshState env) := by
    simp [openDb, emptyDb, upsertInit, freshState, List.filter]
  have hs1 : s1 = freshState env := by
    rw [hfresh] at hdb
    exact (Option.some.injEq _ _).mp hdb.symm
  subst hs1
  refine ⟨?_, hlen1, hlen2, rfl, ?_, ?_⟩ <;>
    simp [openDb, emptyDb, readhkey, upsertInit, lookupInit, freshState,
      List.filter, List.find?]

/-- Witness for C5 with identity encode/encrypt and concrete random blocks:
the fresh open stores the keys, and a reopen with different random material
returns the identical pair. -/
theorem open_provisions_keys_only_when_fresh_witness :
    readhkey (fun b => b) (openDb envW1 emptyDb)
      = some (List.replicate HANDLEKEYLENGTH 1, List.replicate HANDLEKEYLENGTH 2) ∧
    (List.replicate HANDLEKEYLENGTH 1).length = HANDLEKEYLENGTH ∧
    (List.replicate HANDLEKEYLENGTH 2).length = HANDLEKEYLENGTH ∧
    sW5.initExists = true ∧
    (openDb envW2 sW5).db = some sW5 ∧
    readhkey (fun b => b) (openDb envW2 sW5) = readhkey (fun b => b) (openDb envW1 emptyDb) :=
  open_provisions_keys_only_when_fresh envW1 envW2 (fun b => b) sW5
    (by decide) (by decide) (by decide)

/-- C6: with an active cursor, `next` and `nexthandle` pull the next row
under the active selector; on exhaustion the statement is finalized and the
instance returns to the no-active-cursor state (`pStmt = none`); and a call
made with no active cursor — including a repeat call after exhaustion —
returns the same false/exhausted sentinel with nothing modified, not an
error. -/
theorem cursor_advance_protocol
    (t : TableState) (s : DbState) (hdb : t.db = some s) (buf : Bytes) (h0 : Nat) :
    (t.pStmt = none → next t buf = (false, buf, t) ∧ nexthandle t h0 = (false, h0, t)) ∧
    (t.pStmt = some [] →
      next t buf = (false, buf, { t with pStmt := none }) ∧
      nexthandle t h0 = (false, h0, { t with pStmt := none }) ∧
      next { t with pStmt := none } buf = (false, buf, { t with pStmt := none }) ∧
      nexthandle { t with pStmt := none } h0 = (false, h0, { t with pStmt := none })) ∧
    (∀ c cs, t.pStmt = some (c :: cs) →
      next t buf = (true, c.asBlob, { t with pStmt := some cs }) ∧
      nexthandle t h0 = (true, c.asInt, { t with pStmt := some cs })) := by
  obtain ⟨tdb, tps⟩ := t
  obtain rfl : tdb = some s := hdb
  refine ⟨fun hp => ?_, fun hp => ?_, fun c cs hp => ?_⟩ <;>
    · obtain rfl : tps = _ := hp
      simp [next, nexthandle]

/-- Witness for C6: a one-row handle cursor delivers its row, the next call
reports exhaustion and releases the cursor, and a further call still reports
exhaustion. -/
theorem cursor_advance_protocol_witness :
    nexthandle ⟨some emptyDb, some [Col.int64 3]⟩ 0 = (true, 3, ⟨some emptyDb, some []⟩) ∧
    nexthandle ⟨some emptyDb, some []⟩ 0 = (false, 0, ⟨some emptyDb, none⟩) ∧
    nexthandle ⟨some emptyDb, none⟩ 0 = (false, 0, ⟨some emptyDb, none⟩) :=
  ⟨((cursor_advance_protocol ⟨some emptyDb, some [Col.int64 3]⟩ emptyDb rfl [] 0).2.2
      (Col.int64 3) [] rfl).2,
   ((cursor_advance_protocol ⟨some emptyDb, some []⟩ emptyDb rfl [] 0).2.1 rfl).2.1,
   ((cursor_advance_protocol ⟨some emptyDb, none⟩ emptyDb rfl [] 0).1 rfl).2⟩

/-- C7: after `remove()` has nulled the `db` member, every operation on the
instance takes the `if (!db)` exit: reads return false with the output
buffer untouched, `readhkey` fails, puts and deletes return false and leave
the instance unchanged, the rewind calls and `truncate` do nothing, and the
cursor calls return the exhausted sentinel — no operation observes or
modifies any data. -/
theorem remove_disables_all_operations
    (t : TableState) (s : DbState) (hdb : t.db = some s) (atob : Bytes → Bytes)
    (i sh : Int) (h ph uh pid h0 : Nat) (fp buf d : Bytes) (attr : Option Bytes) (c : Nat) :
    (remove t).db = none ∧
    getscsn (remove t) buf = (false, buf) ∧
    getrootnode (remove t) i buf = (false, buf) ∧
    getnodebyhandle (remove t) h buf = (false, buf) ∧
    getnodebyfingerprint (remove t) fp buf = (false, buf) ∧
    getnumchildrenquery (remove t) ph c = (false, c) ∧
    getnumchildfilesquery (remove t) ph c = (false, c) ∧
    getnumchildfoldersquery (remove t) ph c = (false, c) ∧
    readhkey atob (remove t) = none ∧
    putscsn (remove t) d = (false, remove t) ∧
    putrootnode (remove t) i d = (false, remove t) ∧
    putnode (remove t) h ph fp attr sh d = (false, remove t) ∧
    putuser (remove t) uh d = (false, remove t) ∧
    putpcr (remove t) pid d = (false, remove t) ∧
    delnode (remove t) h = (false, remove t) ∧
    delpcr (remove t) pid = (false, remove t) ∧
    rewinduser (remove t) = remove t ∧
    rewindpcr (remove t) = remove t ∧
    rewindhandleschildren (remove t) ph = remove t ∧
    rewindhandlesoutshares (remove t) ph = remove t ∧
    rewindhandlespendingshares (remove t) ph = remove t ∧
    next (remove t) buf = (false, buf, remove t) ∧
    nexthandle (remove t) h0 = (false, h0, remove t) ∧
    truncate (remove t) = remove t := by
  obtain ⟨tdb, tps⟩ := t
  obtain rfl : tdb = some s := hdb
  refine ⟨?_, ?_, ?_, ?_, ?_, ?_, ?_, ?_, ?_, ?_, ?_, ?_, ?_, ?_, ?_, ?_, ?_, ?_, ?_,
    ?_, ?_, ?_, ?_, ?_⟩ <;>
    simp [remove, getscsn, getrootnode, getnodebyhandle, getnodebyfingerprint,
      getnumchildrenquery, getnumchildfilesquery, getnumchildfoldersquery,
      readhkey, putscsn, putrootnode, putnode, putuser, putpcr, delnode, delpcr,
      rewinduser, rewindpcr, rewindhandleschildren, rewindhandlesoutshares,
      rewindhandlespendingshares, next, nexthandle, truncate]

/-- Witness for C7 on a concretely removed instance. -/
theorem remove_disables_all_operations_witness :
    (remove ⟨some emptyDb, none⟩).db = none ∧
    getscsn (remove ⟨some emptyDb, none⟩) [9] = (false, [9]) ∧
    getrootnode (remove ⟨some emptyDb, none⟩) 1 [9] = (false, [9]) ∧
    getnodebyhandle (remove ⟨some emptyDb, none⟩) 2 [9] = (false, [9]) ∧
    getnodebyfingerprint (remove ⟨some emptyDb, none⟩) [1] [9] = (false, [9]) ∧
    getnumchildrenquery (remove ⟨some emptyDb, none⟩) 3 7 = (false, 7) ∧
    getnumchildfilesquery (remove ⟨some emptyDb, none⟩) 3 7 = (false, 7) ∧
    getnumchildfoldersquery (remove ⟨some emptyDb, none⟩) 3 7 = (false, 7) ∧
    readhkey (fun b => b) (remove ⟨some emptyDb, none⟩) = none ∧
    putscsn (remove ⟨some emptyDb, none⟩) [2] = (false, remove ⟨some emptyDb, none⟩) ∧
    putrootnode (remove ⟨some emptyDb, none⟩) 1 [2] = (false, remove ⟨some emptyDb, none⟩) ∧
    putnode (remove ⟨some emptyDb, none⟩) 2 3 [1] none 0 [2]
      = (false, remove ⟨some emptyDb, none⟩) ∧
    putuser (remove ⟨some emptyDb, none⟩) 4 [2] = (false, remove ⟨some emptyDb, none⟩) ∧
    putpcr (remove ⟨some emptyDb, none⟩) 5 [2] = (false, remove ⟨some emptyDb, none⟩) ∧
    delnode (remove ⟨some emptyDb, none⟩) 2 = (false, remove ⟨some emptyDb, none⟩) ∧
    delpcr (remove ⟨some emptyDb, none⟩) 5 = (false, remove ⟨some emptyDb, none⟩) ∧
    rewinduser (remove ⟨some emptyDb, none⟩) = remove ⟨some emptyDb, none⟩ ∧
    rewindpcr (remove ⟨some emptyDb, none⟩) = remove ⟨some emptyDb, none⟩ ∧
    rewindhandleschildren (remove ⟨some emptyDb, none⟩) 3 = remove ⟨some emptyDb, none⟩ ∧
    rewindhandlesoutshares (remove ⟨some emptyDb, none⟩) 3 = remove ⟨some emptyDb, none⟩ ∧
    rewindhandlespendingshares (remove ⟨some emptyDb, none⟩) 3 = remove ⟨some emptyDb, none⟩ ∧
    next (remove ⟨some emptyDb, none⟩) [9] = (false, [9], remove ⟨some emptyDb, none⟩) ∧
    nexthandle (remove ⟨some emptyDb, none⟩) 6 = (false, 6, remove ⟨some emptyDb, none⟩) ∧
    truncate (remove ⟨some emptyDb, none⟩) = remove ⟨some emptyDb, none⟩ :=
  remove_disables_all_operations ⟨some emptyDb, none⟩ emptyDb rfl (fun b => b)
    1 0 2 3 4 5 6 [1] [9] [2] none 7

/-- C8: `putrootnode` does not restrict its slot index to the reserved range
1-3: for every integer index `i` and payload `d` it upserts init slot `i`
and `getrootnode(i)` symmetrically reads any slot back; in particular
`putrootnode(4, d)` overwrites the node-handle sub-key, after which
`readhkey` decodes `d` instead of the provisioned key, and
`putrootnode(0, d)` overwrites the sync cursor token read by `getscsn`. -/
theorem putrootnode_slots_unrestricted
    (t : TableState) (s : DbState) (hdb : t.db = some s) (atob : Bytes → Bytes)
    (i : Int) (d buf : Bytes) (b5 : Bytes) (h5 : lookupInit s 5 = some b5) :
    (putrootnode t i d).1 = true ∧
    getrootnode (putrootnode t i d).2 i buf = (true, d) ∧
    readhkey atob (putrootnode t 4 d).2 = some (atob d, atob b5) ∧
    getscsn (putrootnode t 0 d).2 buf = (true, d) := by
  obtain ⟨tdb, tps⟩ := t
  obtain rfl : tdb = some s := hdb
  refine ⟨rfl, ?_, ?_, ?_⟩
  · simp [putrootnode, getrootnode, lookupInit_upsertInit]
  · have h45 : (5 : Int) ≠ 4 := by decide
    simp [putrootnode, readhkey, lookupInit_upsertInit, h45, h5]
  · simp [putrootnode, getscsn, lookupInit_upsertInit]

/-- Witness for C8: on a store whose init table holds only slot 5, writing
slot 7, slot 4 and slot 0 through `putrootnode` is accepted and observed by
`getrootnode`, `readhkey` and `getscsn`. -/
theorem putrootnode_slots_unrestricted_witness :
    (putrootnode ⟨some sW8, none⟩ 7 [1, 2]).1 = true ∧
    getrootnode (putrootnode ⟨some sW8, none⟩ 7 [1, 2]).2 7 [] = (true, [1, 2]) ∧
    readhkey (fun b => b) (putrootnode ⟨some sW8, none⟩ 4 [1, 2]).2 = some ([1, 2], [9]) ∧
    getscsn (putrootnode ⟨some sW8, none⟩ 0 [1, 2]).2 [] = (true, [1, 2]) :=
  putrootnode_slots_unrestricted ⟨some sW8, none⟩ sW8 rfl (fun b => b) 7 [1, 2] [] [9]
    (by decide)

/-- C9: each read accessor that fills a caller-supplied output buffer
(`getscsn`, `getrootnode`, `getnodebyhandle`, `getnodebyfingerprint`) leaves
the buffer completely unchanged whenever it reports false — whether because
`db` is null or because no row matched; the buffer is assigned only when a
row is found. -/
theorem failed_reads_leave_buffer_untouched
    (t : TableState) (i : Int) (h : Nat) (fp buf : Bytes) :
    ((getscsn t buf).1 = false → (getscsn t buf).2 = buf) ∧
    ((getrootnode t i buf).1 = false → (getrootnode t i buf).2 = buf) ∧
    ((getnodebyhandle t h buf).1 = false → (getnodebyhandle t h buf).2 = buf) ∧
    ((getnodebyfingerprint t fp buf).1 = false → (getnodebyfingerprint t fp buf).2 = buf) := by
  refine ⟨?_, ?_, ?_, ?_⟩
  · cases htd : t.db with
    | none => simp [getscsn, htd]
    | some s =>
      cases hl : lookupInit s 0 with
      | none => simp [getscsn, htd, hl]
      | some b => simp [getscsn, htd, hl]
  · cases htd : t.db with
    | none => simp [getrootnode, htd]
    | some s =>
      cases hl : lookupInit s i with
      | none => simp [getrootnode, htd, hl]
      | some b => simp [getrootnode, htd, hl]
  · cases htd : t.db with
    | none => simp [getnodebyhandle, htd]
    | some s =>
      cases hl : s.nodes.find? (fun r => r.nodehandle == h) with
      | none => simp [getnodebyhandle, htd, hl]
      | some r => simp [getnodebyhandle, htd, hl]
  · cases htd : t.db with
    | none => simp [getnodebyfingerprint, htd]
    | some s =>
      cases hl : s.nodes.find? (fun r => r.fingerprint == some fp) with
      | none => simp [getnodebyfingerprint, htd, hl]
      | some r => simp [getnodebyfingerprint, htd, hl]

/-- C10: `delnode(h)` and `delpcr(id)` report success even when no row with
that key exists — `sqlite3_step` of a DELETE returns `SQLITE_DONE` whether
or not a row matched — and deleting an absent key leaves the store
unchanged. -/
theorem delete_absent_reports_ok
    (t : TableState) (s : DbState) (hdb : t.db = some s) (h pid : Nat) :
    (delnode t h).1 = true ∧ (delpcr t pid).1 = true ∧
    ((∀ r ∈ s.nodes, r.nodehandle ≠ h) → (delnode t h).2 = t) ∧
    ((∀ r ∈ s.pcrs, r.1 ≠ pid) → (delpcr t pid).2 = t) := by
  obtain ⟨tdb, tps⟩ := t
  obtain rfl : tdb = some s := hdb
  refine ⟨rfl, rfl, fun habs => ?_, fun habs => ?_⟩
  · have hf : s.nodes.filter (fun r => r.nodehandle != h) = s.nodes :=
      List.filter_eq_self.mpr (fun a ha => by simpa using habs a ha)
    simp [delnode, hf]
  · have hf : s.pcrs.filter (fun r => r.1 != pid) = s.pcrs :=
      List.filter_eq_self.mpr (fun a ha => by simpa using habs a ha)
    simp [delpcr, hf]

/-- Witness for C9: on an open but empty store every read reports false and
the buffer keeps its prior content. -/
theorem failed_reads_leave_buffer_untouched_witness :
    (getscsn ⟨some emptyDb, none⟩ [5]).2 = [5] ∧
    (getrootnode ⟨some emptyDb, none⟩ 2 [5]).2 = [5] ∧
    (getnodebyhandle ⟨some emptyDb, none⟩ 3 [5]).2 = [5] ∧
    (getnodebyfingerprint ⟨some emptyDb, none⟩ [1] [5]).2 = [5] :=
  ⟨(failed_reads_leave_buffer_untouched ⟨some emptyDb, none⟩ 2 3 [1] [5]).1 (by decide),
   (failed_reads_leave_buffer_untouched ⟨some emptyDb, none⟩ 2 3 [1] [5]).2.1 (by decide),
   (failed_reads_leave_buffer_untouched ⟨some emptyDb, none⟩ 2 3 [1] [5]).2.2.1 (by decide),
   (failed_reads_leave_buffer_untouched ⟨some emptyDb, none⟩ 2 3 [1] [5]).2.2.2 (by decide)⟩

/-- Witness for C10: deleting the absent node handle 42 and absent pcr id 44
reports ok and leaves the populated store untouched. -/
theorem delete_absent_reports_ok_witness :
    (delnode ⟨some dbPopulated, none⟩ 42).1 = true ∧
    (delpcr ⟨some dbPopulated, none⟩ 44).1 = true ∧
    (delnode ⟨some dbPopulated, none⟩ 42).2 = ⟨some dbPopulated, none⟩ ∧
    (delpcr ⟨some dbPopulated, none⟩ 44).2 = ⟨some dbPopulated, none⟩ :=
  ⟨(delete_absent_reports_ok ⟨some dbPopulated, none⟩ dbPopulated rfl 42 44).1,
   (delete_absent_reports_ok ⟨some dbPopulated, none⟩ dbPopulated rfl 42 44).2.1,
   (delete_absent_reports_ok ⟨some dbPopulated, none⟩ dbPopulated rfl 42 44).2.2.1 (by decide),
   (delete_absent_reports_ok ⟨some dbPopulated, none⟩ dbPopulated rfl 42 44).2.2.2 (by decide)⟩
